import Mathlib

/-!
Verification of the documentation-extractor scripts.

The repository holds two Python scripts that drive a vendor crawling API:
`firecrawl-test.py` (v1: crawl, reuse the returned markdown, write a file)
and `firecrawl-test-v2.py` (v2: crawl for URLs, batch-extract with a polling
loop, format, write a file).  This file embeds the logic those scripts
actually contain — the polling/timeout policy of `batch_extract_and_watch`,
the page-to-block formatting, the output writer and the `main` control
flow — and proves the spec's testable properties about the embedding.

Conventions of the embedding:
* a Python dict field that may be absent is an `Option`; `dict.get(k, d)`
  becomes `Option.getD`;
* wall-clock time is a natural number of seconds; `time.sleep(5)` advances
  it by 5 and every other operation is instantaneous, so the polling loop
  queries the status at times 0, 5, 10, …;
* the unbounded `while True` loop is driven by the (arbitrarily long) list
  of statuses the vendor would serve; a run that exhausts the list before
  any of the code's own stop conditions fires is `none` (not reached by the
  claims, whose hypotheses supply enough statuses);
* the vendor and the file system are free parameters (`Bool` flags for
  "the call succeeded", an association list for the file system), since the
  scripts treat them as an opaque collaborator.
-/

namespace Firecrawl

/-- `page['metadata']`: the per-page metadata dict; only the two fields the
scripts read are modelled. -/
structure Metadata where
  sourceURL : Option String
  title : Option String
deriving DecidableEq

/-- One page record as returned by the vendor: only the fields the scripts
read (`markdown`, `extract`, `metadata`). -/
structure Page where
  markdown : Option String
  extract : Option String
  metadata : Option Metadata
deriving DecidableEq

/-- `DocumentationCrawler.process_page` of `firecrawl-test-v2.py` (lines
58-76): read `extract` (default `''`), the metadata defaults `'Unknown URL'`
and `'Untitled'`, skip the page (`None`) when the extracted content is
falsy, otherwise produce the fixed markdown block. -/
def process_page (page : Page) : Option String :=
  let extracted_content := page.extract.getD ""
  let metadata := page.metadata.getD ⟨none, none⟩
  let source_url := metadata.sourceURL.getD "Unknown URL"
  let title := metadata.title.getD "Untitled"
  if extracted_content = "" then
    none
  else
    some ("# " ++ title ++ "\nSource: " ++ source_url ++ "\n\n" ++
      extracted_content ++ "\n\n---\n")

/-- The per-page formatting inlined in `main` of `firecrawl-test.py`
(lines 41-56): read `markdown` (default `''`), same metadata defaults,
produce the same fixed block when the markdown content is non-empty,
contribute nothing otherwise. -/
def formatPageV1 (page : Page) : Option String :=
  let markdown_content := page.markdown.getD ""
  let metadata := page.metadata.getD ⟨none, none⟩
  let source_url := metadata.sourceURL.getD "Unknown URL"
  let title := metadata.title.getD "Untitled"
  if markdown_content = "" then
    none
  else
    some ("# " ++ title ++ "\nSource: " ++ source_url ++ "\n\n" ++
      markdown_content ++ "\n\n---\n")

/-- One response of `check_batch_scrape_status`: the fields the polling loop
reads (`status`, `completed`, `total`, `creditsUsed`, `data`). -/
structure BatchStatus where
  status : Option String
  completed : Option Nat
  total : Option Nat
  creditsUsed : Option Nat
  data : Option (List Page)
deriving DecidableEq

/-- Which stop condition of the polling loop fired.  The tag records which
`break`/`return` was taken; the payload below is in every case exactly what
the Python returns. -/
inductive StopReason where
  | statusCompleted
  | statusFailed
  | stuckOnLastPage
  | timeout
deriving DecidableEq

/-- Result of the polling loop of `batch_extract_and_watch`:
`finished r data credits` for the three `break`s (after the loop the code
returns `status.get('data', []), status.get('creditsUsed', 0)`), `failed`
for the `return None` on status `'failed'`. -/
inductive PollResult where
  | finished (reason : StopReason) (data : List Page) (credits : Nat)
  | failed
deriving DecidableEq

/-- `completed > 0 and completed == total - 1`: the "on the last page" test
of line 125 (with the dict defaults of lines 112-113). -/
def onLastPage (s : BatchStatus) : Prop :=
  0 < s.completed.getD 0 ∧ s.completed.getD 0 = s.total.getD 0 - 1

instance (s : BatchStatus) : Decidable (onLastPage s) := by
  unfold onLastPage; infer_instance

/-- The update of `last_progress_time` performed by lines 124-130: frozen
while the loop sits on the last page, reset to the current time otherwise. -/
def nextLp (s : BatchStatus) (now lp : Nat) : Nat :=
  if onLastPage s then lp else now

/-- The `while True` loop of `batch_extract_and_watch` (lines 110-142),
driven by the list of statuses the vendor serves to successive
`check_batch_scrape_status` calls.  `now` is the elapsed time at the current
status check (`start_time` is 0), `lp` is `last_progress_time`.  Checks in
the code's order: status `'completed'` breaks, status `'failed'` returns
`None`, the stuck-on-last-page heuristic breaks after more than 120 s
without a count change, the 300 s overall timeout breaks; otherwise sleep
5 s and poll again. -/
def pollLoop : List BatchStatus → Nat → Nat → Option PollResult
  | [], _, _ => none
  | s :: rest, now, lp =>
    if s.status = some "completed" then
      some (.finished .statusCompleted (s.data.getD []) (s.creditsUsed.getD 0))
    else if s.status = some "failed" then
      some .failed
    else if onLastPage s ∧ 120 < now - lp then
      some (.finished .stuckOnLastPage (s.data.getD []) (s.creditsUsed.getD 0))
    else if 300 < now then
      some (.finished .timeout (s.data.getD []) (s.creditsUsed.getD 0))
    else
      pollLoop rest (now + 5) (nextLp s now lp)

/-- A single status lets the loop keep polling: it is not terminal and
triggers neither the stuck heuristic nor the overall timeout at time
`now` with stall-tracker `lp`. -/
def keepsGoing (s : BatchStatus) (now lp : Nat) : Prop :=
  s.status ≠ some "completed" ∧ s.status ≠ some "failed" ∧
    ¬(onLastPage s ∧ 120 < now - lp) ∧ ¬(300 < now)

instance (s : BatchStatus) (now lp : Nat) : Decidable (keepsGoing s now lp) := by
  unfold keepsGoing; infer_instance

/-- The whole prefix lets the loop keep polling. -/
def noEarlyStop : List BatchStatus → Nat → Nat → Prop
  | [], _, _ => True
  | s :: rest, now, lp =>
    keepsGoing s now lp ∧ noEarlyStop rest (now + 5) (nextLp s now lp)

instance instDecNoEarlyStop : (ss : List BatchStatus) → (now lp : Nat) → Decidable (noEarlyStop ss now lp)
  | [], _, _ => by unfold noEarlyStop; infer_instance
  | s :: rest, now, lp =>
    have := instDecNoEarlyStop rest (now + 5) (nextLp s now lp)
    by unfold noEarlyStop; infer_instance

/-- The value of `last_progress_time` after the loop has polled a whole
list of statuses. -/
def lpAfter : List BatchStatus → Nat → Nat → Nat
  | [], _, lp => lp
  | s :: rest, now, lp => lpAfter rest (now + 5) (nextLp s now lp)

/-- The file system seen by the scripts: an association list from path to
current file content. -/
abbrev FS := List (String × String)

/-- Opening a path in mode `"w"` and writing `s`: any previous content of
that path is discarded. -/
def writeFile (fs : FS) (path s : String) : FS :=
  (path, s) :: List.filter (fun e => !(e.1 == path)) fs

/-- Reading a file back: the current content of the path, if any. -/
def readFile (fs : FS) (path : String) : Option String :=
  List.lookup path fs

/-- The exact text both scripts emit: the fixed two-line header
(`f.write` of the two header strings) followed by the blocks joined with
`'\n'.join(content)`. -/
def outputContent (content : List String) : String :=
  "# Technical Documentation Overview\n\n" ++ "Generated with Firecrawl\n\n" ++
    String.intercalate "\n" content

/-- The OS-level open-and-write, which may fail (permissions, disk); the
environment flag `canWrite` says whether it does.  On failure the file
system is unchanged and an exception value is produced. -/
def tryWrite (canWrite : Bool) (fs : FS) (path s : String) : Except String FS :=
  if canWrite then .ok (writeFile fs path s) else .error "write failed"

/-- `DocumentationCrawler.save_documentation` of `firecrawl-test-v2.py`
(lines 78-90): try to write the header plus joined blocks to the output
path; return `True` on success and catch any exception, returning `False`,
with the file system as it was. -/
def save_documentation (canWrite : Bool) (fs : FS) (content : List String)
    (output_file : String) : FS × Bool :=
  match tryWrite canWrite fs output_file (outputContent content) with
  | .ok fs2 => (fs2, true)
  | .error _ => (fs, false)

/-- The crawl response dict: the two fields `main` reads. -/
structure CrawlResponse where
  success : Option Bool
  data : Option (List Page)
deriving DecidableEq

/-- What a finished run reports back to the OS: the process exit code, and
whether the run ever attempted to write the output file. -/
structure MainOutcome where
  exitCode : Nat
  saveAttempted : Bool
deriving DecidableEq

/-- `batch_extract_and_watch` around its polling loop (lines 92-146):
`async_batch_scrape_urls` must report success (`startOk`), else `None`;
then the polling loop runs and its `failed` outcome is `None`, while the
three `break`s return `(status.get('data', []), creditsUsed)`.  The outer
`none` is the unmodelled case in which the supplied status list runs out. -/
def batch_extract_and_watch (startOk : Bool) (statuses : List BatchStatus) :
    Option (Option (List Page × Nat)) :=
  if startOk = false then some none
  else
    (pollLoop statuses 0 0).map fun r =>
      match r with
      | .failed => none
      | .finished _ d c => some (d, c)

/-- `main` of `firecrawl-test.py` (lines 5-74): crawl, exit 1 if the
response is not successful or has no data, format every page's markdown,
write the file when any content was produced (an exception during the
write is caught by the top-level handler, which exits 1), and merely print
a message — exiting 0 — when no content was extracted. -/
def mainV1 (crawl : CrawlResponse) (canWrite : Bool) (fs : FS) :
    MainOutcome × FS :=
  if ¬(crawl.success = some true) then (⟨1, false⟩, fs)
  else
    let crawl_data := crawl.data.getD []
    if crawl_data = [] then (⟨1, false⟩, fs)
    else
      let all_extracted_content := crawl_data.filterMap formatPageV1
      if all_extracted_content = [] then (⟨0, false⟩, fs)
      else
        match tryWrite canWrite fs "technical_documentation.md"
            (outputContent all_extracted_content) with
        | .ok fs2 => (⟨0, true⟩, fs2)
        | .error _ => (⟨1, true⟩, fs)

/-- `main` of `firecrawl-test-v2.py` (lines 148-232): crawl for URLs, exit
1 if that is not successful; run the batch extraction (exit 1 when it
returns `None`); format the returned pages with `process_page`; exit 1 when
nothing was processed; save and exit 1 when `save_documentation` reports
failure, 0 otherwise.  `none` only when the modelled status list runs
out mid-poll. -/
def mainV2 (crawl : CrawlResponse) (startOk : Bool)
    (statuses : List BatchStatus) (canWrite : Bool) (fs : FS) :
    Option (MainOutcome × FS) :=
  if ¬(crawl.success = some true) then some (⟨1, false⟩, fs)
  else
    match batch_extract_and_watch startOk statuses with
    | none => none
    | some none => some (⟨1, false⟩, fs)
    | some (some (extracted_data, _credits)) =>
      let processed_content := extracted_data.filterMap process_page
      if processed_content = [] then some (⟨1, false⟩, fs)
      else
        match save_documentation canWrite fs processed_content
            "technical_documentation-extract.md" with
        | (fs2, true) => some (⟨0, true⟩, fs2)
        | (_, false) => some (⟨1, true⟩, fs)

/-- A status the vendor can serve while a job is still running: not
terminal, no page finished yet. -/
def scrapingStatus : BatchStatus :=
  ⟨some "scraping", some 0, some 10, some 1, some []⟩

/-- A terminal `completed` status carrying one extracted page and a credit
total of 7. -/
def completedStatus : BatchStatus :=
  ⟨some "completed", some 10, some 10, some 7, some [⟨none, some "page text", none⟩]⟩

/-- A status the vendor can serve while stuck on the last page of ten:
nine pages done, not terminal, carrying one page of partial data. -/
def stalledStatus : BatchStatus :=
  ⟨some "scraping", some 9, some 10, some 3, some [⟨none, some "partial", none⟩]⟩

/-- A status of a one-page batch with nothing finished yet: `completed` is
0 and `total` is 1, so `completed == total - 1` holds while the code's
`completed > 0` guard does not. -/
def stalledZeroOfOne : BatchStatus :=
  ⟨some "scraping", some 0, some 1, some 1, some []⟩

/-- A terminal `completed` status for the one-page batch, carrying its one
extracted page and 2 credits. -/
def completedOne : BatchStatus :=
  ⟨some "completed", some 1, some 1, some 2, some [⟨none, some "late page", none⟩]⟩

/-- Appending two adjacent literal pieces of a format string. -/
theorem append_lit (x a b ab : String) (h : a ++ b = ab) :
    x ++ a ++ b = x ++ ab := by
  rw [String.append_assoc, h]

/-- Claim C4 (confirmed): a page with non-empty content and both metadata
fields formats to exactly
`"# " ++ title ++ "\nSource: " ++ url ++ "\n\n" ++ content ++ "\n\n---\n"`,
in v2 (`process_page`, content from `extract`) and in v1 (inline in `main`,
content from `markdown`) alike. -/
theorem formatted_block_template (title url content : String)
    (md ex : Option String) (h : content ≠ "") :
    process_page ⟨md, some content, some ⟨some url, some title⟩⟩ =
      some ("# " ++ title ++ "\nSource: " ++ url ++ "\n\n" ++ content ++
        "\n\n---\n") ∧
    formatPageV1 ⟨some content, ex, some ⟨some url, some title⟩⟩ =
      some ("# " ++ title ++ "\nSource: " ++ url ++ "\n\n" ++ content ++
        "\n\n---\n") := by
  constructor <;> simp [process_page, formatPageV1, h]

/-- Witness for C4: a concrete page formats to the concrete template
instance. -/
theorem formatted_block_template_witness :
    ("hello" : String) ≠ "" ∧
    process_page ⟨none, some "hello", some ⟨some "https://d.e/x", some "T"⟩⟩ =
      some "# T\nSource: https://d.e/x\n\nhello\n\n---\n" ∧
    formatPageV1 ⟨some "hello", none, some ⟨some "https://d.e/x", some "T"⟩⟩ =
      some "# T\nSource: https://d.e/x\n\nhello\n\n---\n" :=
  ⟨by decide,
   (formatted_block_template "T" "https://d.e/x" "hello" none none (by decide)).1,
   (formatted_block_template "T" "https://d.e/x" "hello" none none (by decide)).2⟩

/-- Counterexample to C5 as stated: possession of either content field is
not sufficient.  A page holding only non-empty `markdown` is skipped by
v2's `process_page` (which reads only `extract`), and a page holding only
non-empty `extract` is skipped by v1's formatter (which reads only
`markdown`). -/
theorem either_content_field_cex :
    (⟨some "# docs", none, some ⟨some "u", some "t"⟩⟩ : Page).markdown.getD "" ≠ "" ∧
    process_page ⟨some "# docs", none, some ⟨some "u", some "t"⟩⟩ = none ∧
    (⟨none, some "text", some ⟨some "u", some "t"⟩⟩ : Page).extract.getD "" ≠ "" ∧
    formatPageV1 ⟨none, some "text", some ⟨some "u", some "t"⟩⟩ = none := by
  decide

/-- Claim C5 (corrected): each script accepts a page exactly when its own
content field is non-empty — `extract` for v2's `process_page`, `markdown`
for v1's inline formatter; the other field is ignored. -/
theorem content_field_acceptance (p : Page) :
    ((process_page p).isSome ↔ p.extract.getD "" ≠ "") ∧
    ((formatPageV1 p).isSome ↔ p.markdown.getD "" ≠ "") := by
  constructor
  · by_cases hc : p.extract.getD "" = "" <;> simp [process_page, hc]
  · by_cases hc : p.markdown.getD "" = "" <;> simp [formatPageV1, hc]

/-- Claim C6 (confirmed): a page whose content field is missing or empty
contributes zero blocks, and the remaining pages of the batch are
processed exactly as they would be without it (so the run cannot fail
solely because of that page). -/
theorem empty_content_page_skipped (l1 l2 : List Page) (p : Page) :
    (p.extract.getD "" = "" →
      (l1 ++ p :: l2).filterMap process_page =
        l1.filterMap process_page ++ l2.filterMap process_page) ∧
    (p.markdown.getD "" = "" →
      (l1 ++ p :: l2).filterMap formatPageV1 =
        l1.filterMap formatPageV1 ++ l2.filterMap formatPageV1) := by
  constructor
  · intro h
    have hp : process_page p = none := by simp [process_page, h]
    simp [List.filterMap_append, List.filterMap_cons, hp]
  · intro h
    have hp : formatPageV1 p = none := by simp [formatPageV1, h]
    simp [List.filterMap_append, List.filterMap_cons, hp]

/-- Witness for C6: a contentless page between two batches changes
nothing. -/
theorem empty_content_page_skipped_witness :
    List.filterMap process_page
        [⟨none, some "a", none⟩, ⟨none, none, none⟩] =
      List.filterMap process_page [⟨none, some "a", none⟩] ++
        List.filterMap process_page ([] : List Page) ∧
    List.filterMap formatPageV1
        [⟨some "a", none, none⟩, ⟨none, none, none⟩] =
      List.filterMap formatPageV1 [⟨some "a", none, none⟩] ++
        List.filterMap formatPageV1 ([] : List Page) :=
  ⟨(empty_content_page_skipped [⟨none, some "a", none⟩] [] ⟨none, none, none⟩).1 rfl,
   (empty_content_page_skipped [⟨some "a", none, none⟩] [] ⟨none, none, none⟩).2 rfl⟩

/-- Claim C10 (confirmed): a page with non-empty content but missing
`metadata`, or a metadata dict missing `title` or `sourceURL`, is not
skipped: the defaults `'Untitled'` and `'Unknown URL'` fill the template,
in both scripts. -/
theorem metadata_defaults (c t u : String) (md : Option String) (h : c ≠ "") :
    process_page ⟨md, some c, none⟩ =
      some ("# Untitled\nSource: Unknown URL\n\n" ++ c ++ "\n\n---\n") ∧
    process_page ⟨md, some c, some ⟨none, none⟩⟩ =
      some ("# Untitled\nSource: Unknown URL\n\n" ++ c ++ "\n\n---\n") ∧
    process_page ⟨md, some c, some ⟨none, some t⟩⟩ =
      some ("# " ++ t ++ "\nSource: Unknown URL\n\n" ++ c ++ "\n\n---\n") ∧
    process_page ⟨md, some c, some ⟨some u, none⟩⟩ =
      some ("# Untitled\nSource: " ++ u ++ "\n\n" ++ c ++ "\n\n---\n") ∧
    formatPageV1 ⟨some c, md, none⟩ =
      some ("# Untitled\nSource: Unknown URL\n\n" ++ c ++ "\n\n---\n") ∧
    formatPageV1 ⟨some c, md, some ⟨none, some t⟩⟩ =
      some ("# " ++ t ++ "\nSource: Unknown URL\n\n" ++ c ++ "\n\n---\n") ∧
    formatPageV1 ⟨some c, md, some ⟨some u, none⟩⟩ =
      some ("# Untitled\nSource: " ++ u ++ "\n\n" ++ c ++ "\n\n---\n") := by
  refine ⟨?_, ?_, ?_, ?_, ?_, ?_, ?_⟩ <;>
    simp [process_page, formatPageV1, h] <;>
    rw [append_lit _ "Unknown URL" "\n\n" "Unknown URL\n\n" rfl,
      append_lit _ "\nSource: " "Unknown URL\n\n" "\nSource: Unknown URL\n\n" rfl]

/-- Witness for C10: a concrete metadata-less page still yields a block
with the default title and URL. -/
theorem metadata_defaults_witness :
    ("body" : String) ≠ "" ∧
    process_page ⟨none, some "body", none⟩ =
      some "# Untitled\nSource: Unknown URL\n\nbody\n\n---\n" :=
  ⟨by decide, (metadata_defaults "body" "t" "u" none (by decide)).1⟩

/-- Claim C8 (confirmed): saving N blocks over any existing file system
state and reading the output path back yields exactly the fixed two-line
header followed by the N blocks joined with newlines, in order. -/
theorem output_roundtrip (fs : FS) (path : String) (blocks : List String) :
    readFile (save_documentation true fs blocks path).1 path =
      some ("# Technical Documentation Overview\n\nGenerated with Firecrawl\n\n" ++
        String.intercalate "\n" blocks) := by
  simp [save_documentation, tryWrite, writeFile, readFile, outputContent,
    List.lookup]

/-- Claim C9 (confirmed): `save_documentation` converts any exception of
the underlying write into the return value `False` with the file system as
it was (nothing propagates past it), and returns `True` exactly when the
write succeeded. -/
theorem save_catches_failures (canWrite : Bool) (fs : FS)
    (blocks : List String) (path : String) :
    (∀ e, tryWrite canWrite fs path (outputContent blocks) = .error e →
      save_documentation canWrite fs blocks path = (fs, false)) ∧
    (∀ fs2, tryWrite canWrite fs path (outputContent blocks) = .ok fs2 →
      save_documentation canWrite fs blocks path = (fs2, true)) := by
  constructor
  · intro e he
    simp [save_documentation, he]
  · intro fs2 hok
    simp [save_documentation, hok]

/-- Witness for C9: the concrete failing write returns `False` and leaves
the file system alone; the concrete successful write returns `True`. -/
theorem save_catches_failures_witness :
    save_documentation false [] ["b"] "out.md" = ([], false) ∧
    save_documentation true [] ["b"] "out.md" =
      ([("out.md", outputContent ["b"])], true) :=
  ⟨(save_catches_failures false [] ["b"] "out.md").1 "write failed" rfl,
   (save_catches_failures true [] ["b"] "out.md").2
     [("out.md", outputContent ["b"])] rfl⟩

/-- A status on which no stop condition fires makes the loop poll again
5 seconds later with the updated `last_progress_time`. -/
theorem pollLoop_keepsGoing_cons (s : BatchStatus) (rest : List BatchStatus)
    (now lp : Nat) (h : keepsGoing s now lp) :
    pollLoop (s :: rest) now lp = pollLoop rest (now + 5) (nextLp s now lp) := by
  obtain ⟨h1, h2, h3, h4⟩ := h
  simp [pollLoop, h1, h2, h3, h4]

/-- The loop runs straight through a prefix on which no stop condition
fires, reaching the tail 5 seconds per status later. -/
theorem pollLoop_append_noEarlyStop (pre tail : List BatchStatus) :
    ∀ now lp, noEarlyStop pre now lp →
      pollLoop (pre ++ tail) now lp =
        pollLoop tail (now + 5 * pre.length) (lpAfter pre now lp) := by
  induction pre with
  | nil => intro now lp _; simp [lpAfter]
  | cons s rest ih =>
    intro now lp h
    simp only [noEarlyStop] at h
    obtain ⟨hk, hrest⟩ := h
    rw [List.cons_append, pollLoop_keepsGoing_cons s _ now lp hk, ih _ _ hrest]
    simp only [lpAfter, List.length_cons]
    have harith : now + 5 + 5 * rest.length = now + 5 * (rest.length + 1) := by
      ring
    rw [harith]

/-- Counterexample to C1 as stated: a sequence of 62 non-terminal statuses
followed by a `completed` status carrying data.  The status sequence
reaches `completed`, but the loop has already stopped at elapsed time 305 s
by the overall timeout, returning the 62nd status's empty data and credit
count 1 — not the `completed` status's data `[page]` and credits 7. -/
theorem completed_after_timeout_cex :
    (List.replicate 62 scrapingStatus ++ [completedStatus]).getLast? =
      some completedStatus ∧
    completedStatus.status = some "completed" ∧
    pollLoop (List.replicate 62 scrapingStatus ++ [completedStatus]) 0 0 =
      some (.finished .timeout [] 1) ∧
    pollLoop (List.replicate 62 scrapingStatus ++ [completedStatus]) 0 0 ≠
      some (.finished .statusCompleted (completedStatus.data.getD [])
        (completedStatus.creditsUsed.getD 0)) := by
  have heq : pollLoop (List.replicate 62 scrapingStatus ++ [completedStatus]) 0 0 =
      some (.finished .timeout [] 1) := by decide
  refine ⟨by decide, rfl, heq, ?_⟩
  rw [heq]
  decide

/-- Claim C1 (corrected): whenever the loop reaches a status reporting
`completed` — that is, no earlier status stopped it via the stuck
heuristic, the timeout or a `failed` status — it terminates at that point
and returns that status's `data` and `creditsUsed`. -/
theorem pollLoop_stops_at_completed (pre : List BatchStatus) (s : BatchStatus)
    (rest : List BatchStatus) (h1 : noEarlyStop pre 0 0)
    (h2 : s.status = some "completed") :
    pollLoop (pre ++ s :: rest) 0 0 =
      some (.finished .statusCompleted (s.data.getD []) (s.creditsUsed.getD 0)) := by
  rw [pollLoop_append_noEarlyStop pre (s :: rest) 0 0 h1]
  simp [pollLoop, h2]

/-- Witness for C1: one non-terminal status, then `completed` with one page
and 7 credits; the loop returns exactly those. -/
theorem pollLoop_stops_at_completed_witness :
    noEarlyStop [scrapingStatus] 0 0 ∧
    pollLoop [scrapingStatus, completedStatus] 0 0 =
      some (.finished .statusCompleted [⟨none, some "page text", none⟩] 7) :=
  ⟨by decide,
   pollLoop_stops_at_completed [scrapingStatus] completedStatus []
     (by decide) rfl⟩

/-- A run of identically stalled last-page statuses long enough that the
120-second stall bound (or, for late stalls, the 300-second overall bound)
must fire stops the loop with that status's data. -/
theorem pollLoop_stalled_run (s : BatchStatus) (rest : List BatchStatus)
    (hs1 : s.status ≠ some "completed") (hs2 : s.status ≠ some "failed")
    (hlast : onLastPage s) :
    ∀ n now lp, 1 ≤ n → lp + 120 < now + 5 * (n - 1) →
      ∃ r, (r = StopReason.stuckOnLastPage ∨ r = StopReason.timeout) ∧
        pollLoop (List.replicate n s ++ rest) now lp =
          some (.finished r (s.data.getD []) (s.creditsUsed.getD 0)) := by
  intro n
  induction n with
  | zero => intro now lp h1 _; exact absurd h1 (by omega)
  | succ m ih =>
    intro now lp _ h2
    rw [List.replicate_succ, List.cons_append]
    by_cases hstuck : 120 < now - lp
    · exact ⟨.stuckOnLastPage, Or.inl rfl,
        by simp [pollLoop, hs1, hs2, hlast, hstuck]⟩
    · by_cases htime : 300 < now
      · refine ⟨.timeout, Or.inr rfl, ?_⟩
        simp [pollLoop, hs1, hs2, hstuck, htime]
      · have hm : 1 ≤ m := by omega
        have h2' : lp + 120 < (now + 5) + 5 * (m - 1) := by omega
        obtain ⟨r, hr, heq⟩ := ih (now + 5) lp hm h2'
        have hk : keepsGoing s now lp := ⟨hs1, hs2, fun hc => hstuck hc.2, htime⟩
        refine ⟨r, hr, ?_⟩
        rw [pollLoop_keepsGoing_cons s _ now lp hk]
        have hlp : nextLp s now lp = lp := by simp [nextLp, hlast]
        rw [hlp]
        exact heq

/-- Counterexample to C2 as stated: a one-page batch (total 1, completed 0)
sits at `completed == total - 1` (0 == 0) with no count change for 135
seconds — 27 polls — yet the loop is not stopped early: line 125's
`completed > 0` guard skips the stuck heuristic, `last_progress_time` is
reset every iteration, the 300-second timeout is far off, and the loop
polls on to the later `completed` status, terminating normally with its
data. -/
theorem zero_of_one_stall_no_early_stop :
    stalledZeroOfOne.completed.getD 0 = stalledZeroOfOne.total.getD 0 - 1 ∧
    stalledZeroOfOne.status = some "scraping" ∧
    120 < 5 * 27 ∧
    pollLoop (List.replicate 27 stalledZeroOfOne ++ [completedOne]) 0 0 =
      some (.finished .statusCompleted (completedOne.data.getD [])
        (completedOne.creditsUsed.getD 0)) := by
  decide

/-- Claim C2 (corrected): a batch whose reported progress sits at
`completed == total - 1` with at least one page completed — the code's
last-page test `completed > 0 and completed == total - 1` — and no count
change over at least 26 polls (more than 120 seconds) makes the loop stop
early — via the stuck heuristic, or the overall timeout if that fires
first — without a `completed` or `failed` status, returning the data
available at the stopping point. -/
theorem stalled_last_page_stops_early (s : BatchStatus)
    (rest : List BatchStatus) (n now lp : Nat)
    (hs1 : s.status ≠ some "completed") (hs2 : s.status ≠ some "failed")
    (hlast : onLastPage s) (hn : 26 ≤ n) (hlp : lp ≤ now) :
    ∃ r, (r = StopReason.stuckOnLastPage ∨ r = StopReason.timeout) ∧
      pollLoop (List.replicate n s ++ rest) now lp =
        some (.finished r (s.data.getD []) (s.creditsUsed.getD 0)) :=
  pollLoop_stalled_run s rest hs1 hs2 hlast n now lp (by omega) (by omega)

/-- Witness for C2: 26 polls stuck at 9 of 10 pages from time 0 stop the
loop with the stalled status's partial data. -/
theorem stalled_last_page_stops_early_witness :
    ∃ r, (r = StopReason.stuckOnLastPage ∨ r = StopReason.timeout) ∧
      pollLoop (List.replicate 26 stalledStatus ++ []) 0 0 =
        some (.finished r (stalledStatus.data.getD [])
          (stalledStatus.creditsUsed.getD 0)) :=
  stalled_last_page_stops_early stalledStatus [] 26 0 0 (by decide) (by decide)
    (by decide) (by decide) (by decide)

/-- Any long enough all-non-terminal status sequence stops the loop at
some status index `k` — by the stuck heuristic or the timeout — with
elapsed time at most 305 seconds, returning that status's data. -/
theorem pollLoop_times_out (ss : List BatchStatus) :
    ∀ now lp,
      (∀ s ∈ ss, s.status ≠ some "completed" ∧ s.status ≠ some "failed") →
      ss ≠ [] → now ≤ 305 → 300 < now + 5 * (ss.length - 1) →
      ∃ k, ∃ hk : k < ss.length, ∃ r,
        (r = StopReason.stuckOnLastPage ∨ r = StopReason.timeout) ∧
        now + 5 * k ≤ 305 ∧
        pollLoop ss now lp =
          some (.finished r ((ss.get ⟨k, hk⟩).data.getD [])
            ((ss.get ⟨k, hk⟩).creditsUsed.getD 0)) := by
  induction ss with
  | nil => intro now lp _ hne _ _; exact absurd rfl hne
  | cons s rest ih =>
    intro now lp hterm _ hnow h2
    obtain ⟨hs1, hs2⟩ := hterm s (List.mem_cons_self s rest)
    by_cases hstuck : onLastPage s ∧ 120 < now - lp
    · refine ⟨0, by simp, .stuckOnLastPage, Or.inl rfl, by omega, ?_⟩
      simp [pollLoop, hs1, hs2, hstuck]
    · by_cases htime : 300 < now
      · refine ⟨0, by simp, .timeout, Or.inr rfl, by omega, ?_⟩
        simp [pollLoop, hs1, hs2, hstuck, htime]
      · have hrl : 1 ≤ rest.length := by
          simp only [List.length_cons] at h2
          omega
        have hne2 : rest ≠ [] := by
          intro h
          rw [h] at hrl
          simp at hrl
        obtain ⟨k, hk, r, hr, hb, heq⟩ :=
          ih (now + 5) (nextLp s now lp)
            (fun t ht => hterm t (List.mem_cons_of_mem s ht)) hne2 (by omega)
            (by simp only [List.length_cons] at h2 ⊢; omega)
        refine ⟨k + 1, by simpa using Nat.succ_lt_succ hk, r, hr, by omega, ?_⟩
        rw [pollLoop_keepsGoing_cons s rest now lp ⟨hs1, hs2, hstuck, htime⟩]
        simpa using heq

/-- Claim C3 (confirmed): on a status sequence that never reports
`completed` or `failed`, the loop stops by iteration 61 — elapsed time
at most 305 seconds, the 300-second bound plus one final 5-second
iteration — returning the data available at the stopping status as a
partial success. -/
theorem no_completion_stops_by_timeout (ss : List BatchStatus)
    (hterm : ∀ s ∈ ss, s.status ≠ some "completed" ∧ s.status ≠ some "failed")
    (hlen : 62 ≤ ss.length) :
    ∃ k, ∃ hk : k < ss.length, ∃ r,
      (r = StopReason.stuckOnLastPage ∨ r = StopReason.timeout) ∧ k ≤ 61 ∧
      pollLoop ss 0 0 =
        some (.finished r ((ss.get ⟨k, hk⟩).data.getD [])
          ((ss.get ⟨k, hk⟩).creditsUsed.getD 0)) := by
  obtain ⟨k, hk, r, hr, hb, heq⟩ :=
    pollLoop_times_out ss 0 0 hterm
      (by intro h; rw [h] at hlen; simp at hlen) (by omega) (by omega)
  exact ⟨k, hk, r, hr, by omega, heq⟩

/-- Witness for C3: 62 polls of a never-completing job stop the loop
within the bound. -/
theorem no_completion_stops_by_timeout_witness :
    ∃ k, ∃ hk : k < (List.replicate 62 scrapingStatus).length, ∃ r,
      (r = StopReason.stuckOnLastPage ∨ r = StopReason.timeout) ∧ k ≤ 61 ∧
      pollLoop (List.replicate 62 scrapingStatus) 0 0 =
        some (.finished r
          (((List.replicate 62 scrapingStatus).get ⟨k, hk⟩).data.getD [])
          (((List.replicate 62 scrapingStatus).get ⟨k, hk⟩).creditsUsed.getD 0)) :=
  no_completion_stops_by_timeout (List.replicate 62 scrapingStatus)
    (by decide) (by decide)

/-- Counterexample to C7 as stated: in v1, a successful crawl whose pages
yield no extracted content ends the run with exit code 0 (lines 66-67 only
print a message), not the claimed exit code 1. -/
theorem v1_no_content_exits_zero :
    List.filterMap formatPageV1 [⟨none, some "extract only", none⟩] = [] ∧
    mainV1 ⟨some true, some [⟨none, some "extract only", none⟩]⟩ true [] =
      (⟨0, false⟩, []) := by
  decide

/-- Claim C7 (corrected): both scripts exit 0 on success and 1 on crawl
failure (writing nothing), v1 exits 1 on empty crawl data, v2 exits 1
when the batch extraction fails or no page yields content, and both exit
1 on a write failure — but v1 exits 0, not 1, when pages were crawled
and none yielded content. -/
theorem exit_code_policy (crawl : CrawlResponse) (startOk canWrite : Bool)
    (statuses : List BatchStatus) (fs : FS) :
    (crawl.success ≠ some true →
      mainV1 crawl canWrite fs = (⟨1, false⟩, fs) ∧
      mainV2 crawl startOk statuses canWrite fs = some (⟨1, false⟩, fs)) ∧
    (crawl.success = some true → crawl.data.getD [] = [] →
      mainV1 crawl canWrite fs = (⟨1, false⟩, fs)) ∧
    (crawl.success = some true →
      batch_extract_and_watch startOk statuses = some none →
      mainV2 crawl startOk statuses canWrite fs = some (⟨1, false⟩, fs)) ∧
    (∀ d c, crawl.success = some true →
      batch_extract_and_watch startOk statuses = some (some (d, c)) →
      d.filterMap process_page = [] →
      mainV2 crawl startOk statuses canWrite fs = some (⟨1, false⟩, fs)) ∧
    (crawl.success = some true → crawl.data.getD [] ≠ [] →
      (crawl.data.getD []).filterMap formatPageV1 ≠ [] →
      mainV1 crawl false fs = (⟨1, true⟩, fs)) ∧
    (∀ d c, crawl.success = some true →
      batch_extract_and_watch startOk statuses = some (some (d, c)) →
      d.filterMap process_page ≠ [] →
      mainV2 crawl startOk statuses false fs = some (⟨1, true⟩, fs)) ∧
    (crawl.success = some true → crawl.data.getD [] ≠ [] →
      (crawl.data.getD []).filterMap formatPageV1 ≠ [] →
      ∃ fs2, mainV1 crawl true fs = (⟨0, true⟩, fs2)) ∧
    (∀ d c, crawl.success = some true →
      batch_extract_and_watch startOk statuses = some (some (d, c)) →
      d.filterMap process_page ≠ [] →
      ∃ fs2, mainV2 crawl startOk statuses true fs = some (⟨0, true⟩, fs2)) ∧
    (crawl.success = some true → crawl.data.getD [] ≠ [] →
      (crawl.data.getD []).filterMap formatPageV1 = [] →
      mainV1 crawl canWrite fs = (⟨0, false⟩, fs)) := by
  refine ⟨?_, ?_, ?_, ?_, ?_, ?_, ?_, ?_, ?_⟩
  · intro h
    constructor <;> simp [mainV1, mainV2, h]
  · intro h1 h2
    simp [mainV1, h1, h2]
  · intro h1 h2
    simp [mainV2, h1, h2]
  · intro d c h1 h2 h3
    simp [mainV2, h1, h2, h3]
  · intro h1 h2 h3
    simp [mainV1, h1, h2, h3, tryWrite]
  · intro d c h1 h2 h3
    simp [mainV2, h1, h2, h3, save_documentation, tryWrite]
  · intro h1 h2 h3
    refine ⟨writeFile fs "technical_documentation.md"
      (outputContent ((crawl.data.getD []).filterMap formatPageV1)), ?_⟩
    simp [mainV1, h1, h2, h3, tryWrite]
  · intro d c h1 h2 h3
    refine ⟨writeFile fs "technical_documentation-extract.md"
      (outputContent (d.filterMap process_page)), ?_⟩
    simp [mainV2, h1, h2, h3, save_documentation, tryWrite]
  · intro h1 h2 h3
    simp [mainV1, h1, h2, h3]

/-- Witness for C7: concrete runs exercising every clause — failed crawl
(both scripts), empty crawl data (v1), failed extraction and empty
processing (v2), write failure (both), success (both), and the v1 run
with no extractable content exiting 0. -/
theorem exit_code_policy_witness :
    mainV1 ⟨some false, none⟩ true [] = (⟨1, false⟩, []) ∧
    mainV2 ⟨none, none⟩ true [] true [] = some (⟨1, false⟩, []) ∧
    mainV1 ⟨some true, some []⟩ true [] = (⟨1, false⟩, []) ∧
    mainV2 ⟨some true, none⟩ false [] true [] = some (⟨1, false⟩, []) ∧
    mainV2 ⟨some true, none⟩ true [⟨some "completed", some 0, some 0, some 0, some []⟩]
      true [] = some (⟨1, false⟩, []) ∧
    mainV1 ⟨some true, some [⟨some "md", none, none⟩]⟩ false [] = (⟨1, true⟩, []) ∧
    mainV2 ⟨some true, none⟩ true [completedStatus] false [] = some (⟨1, true⟩, []) ∧
    (∃ fs2, mainV1 ⟨some true, some [⟨some "md", none, none⟩]⟩ true [] =
      (⟨0, true⟩, fs2)) ∧
    (∃ fs2, mainV2 ⟨some true, none⟩ true [completedStatus] true [] =
      some (⟨0, true⟩, fs2)) ∧
    mainV1 ⟨some true, some [⟨none, some "extract only", none⟩]⟩ true [] =
      (⟨0, false⟩, []) := by
  refine ⟨(exit_code_policy ⟨some false, none⟩ true true [] []).1 (by decide) |>.1,
    (exit_code_policy ⟨none, none⟩ true true [] []).1 (by decide) |>.2,
    (exit_code_policy ⟨some true, some []⟩ true true [] []).2.1 rfl rfl,
    (exit_code_policy ⟨some true, none⟩ false true [] []).2.2.1 rfl rfl,
    (exit_code_policy ⟨some true, none⟩ true true
      [⟨some "completed", some 0, some 0, some 0, some []⟩] []).2.2.2.1
      [] 0 rfl (by decide) rfl,
    (exit_code_policy ⟨some true, some [⟨some "md", none, none⟩]⟩ true true
      [] []).2.2.2.2.1 rfl (by decide) (by decide),
    (exit_code_policy ⟨some true, none⟩ true true [completedStatus] []).2.2.2.2.2.1
      [⟨none, some "page text", none⟩] 7 rfl (by decide) (by decide),
    (exit_code_policy ⟨some true, some [⟨some "md", none, none⟩]⟩ true true
      [] []).2.2.2.2.2.2.1 rfl (by decide) (by decide),
    (exit_code_policy ⟨some true, none⟩ true true [completedStatus] []).2.2.2.2.2.2.2.1
      [⟨none, some "page text", none⟩] 7 rfl (by decide) (by decide),
    (exit_code_policy ⟨some true, some [⟨none, some "extract only", none⟩]⟩ true
      true [] []).2.2.2.2.2.2.2.2 rfl (by decide) (by decide)⟩

end Firecrawl
